import Mathlib

/-!
Verification development for the OrionAiTesting repository.

The Python sources are shallowly embedded: strings are modelled as
`List Char`, floating-point scores as exact rationals (`ℚ`), dictionary
results as structures with `Option` fields, exceptions raised by backend
calls as `Except` values, and database / filesystem state as explicit
Lean data passed in and returned.  Every definition below is translated
from a named function of the repository; the file then proves or refutes
the frozen claims about those functions.
-/

namespace MultiModelAI

/-- Python's substring test `sub in s`, on strings modelled as `List Char`. -/
def containsSub (sub s : List Char) : Bool := decide (sub <:+: s)

/-- Python's `s.lower()`: character-wise lowercasing. -/
def lower (s : List Char) : List Char := s.map Char.toLower

/-- From `_estimate_response_quality`: the check `'```' in content`
(presence of a fenced code block). -/
def hasCodeBlock (content : List Char) : Bool :=
  containsSub ("```".toList) content

/-- The explanatory connector words checked by `_estimate_response_quality`. -/
def explanationWords : List (List Char) :=
  ["because".toList, "since".toList, "this is".toList, "explanation".toList]

/-- From `_estimate_response_quality`:
`any(word in content.lower() for word in ['because', 'since', 'this is', 'explanation'])`. -/
def hasExplanation (content : List Char) : Bool :=
  explanationWords.any (fun w => containsSub w (lower content))

/-- From `_estimate_response_quality`:
`'best practice' in content.lower() or 'recommended' in content.lower()`. -/
def hasBestPractice (content : List Char) : Bool :=
  containsSub ("best practice".toList) (lower content)
    || containsSub ("recommended".toList) (lower content)

/-- From `_estimate_response_quality`: `'example' in content.lower()`. -/
def hasExample (content : List Char) : Bool :=
  containsSub ("example".toList) (lower content)

/-- From `_estimate_response_quality`: `len(content) > 500`. -/
def isLongResponse (content : List Char) : Bool :=
  500 < content.length

/-- Each heuristic check of `_estimate_response_quality` adds `0.1` to the
score when its condition holds. -/
def featureBonus (b : Bool) : ℚ := if b then 1/10 else 0

/-- `MultiModelAI._estimate_response_quality(content, task_type)`:
`0.0` for empty content, otherwise a `0.5` base plus `0.1` per heuristic
feature present, capped at `1.0` by the final `min(quality_score, 1.0)`.
The `task_type` argument is accepted but unused, exactly as in the source. -/
def estimate_response_quality (content : List Char) (task_type : List Char) : ℚ :=
  if content = [] then 0
  else
    min (1/2 + featureBonus (hasCodeBlock content) + featureBonus (hasExplanation content)
      + featureBonus (hasBestPractice content) + featureBonus (hasExample content)
      + featureBonus (isLongResponse content)) 1

/-- The number of heuristic features present in a text (spec-side reformulation
used to state the claim about the score's shape). -/
def featureCount (content : List Char) : ℕ :=
  (if hasCodeBlock content then 1 else 0) + (if hasExplanation content then 1 else 0)
  + (if hasBestPractice content then 1 else 0) + (if hasExample content then 1 else 0)
  + (if isLongResponse content then 1 else 0)

end MultiModelAI

namespace MultiModelAI

/-- The two remote backends of `MultiModelAI` (`'openai'` / `'deepseek'`). -/
inductive Backend
  | openai
  | deepseek
  deriving DecidableEq

/-- Backend availability as set up in `MultiModelAI.__init__`:
`self.openai_client` is non-`None` iff the OpenAI key is configured, and
`self.deepseek_available` holds iff the DeepSeek key is configured. -/
structure Availability where
  openai_client : Bool
  deepseek_available : Bool

/-- A `{'primary': ..., 'fallback': ...}` entry of `model_preferences`. -/
structure ModelPref where
  primary : Backend
  fallback : Backend

/-- `load_model_preferences` together with the two dictionary lookups of
`select_optimal_model`:
`task_prefs = self.model_preferences.get(task_type, {})` and
`lang_prefs = task_prefs.get(language, task_prefs.get('general', task_prefs.get('all', {})))`.
Returns `none` exactly when the resulting `lang_prefs` dictionary is empty
(unknown task type). -/
def lookup_lang_prefs (task_type language : List Char) : Option ModelPref :=
  if task_type = "code_generation".toList then
    if language = "python".toList then some ⟨Backend.openai, Backend.deepseek⟩
    else if language = "javascript".toList then some ⟨Backend.deepseek, Backend.openai⟩
    else if language = "react".toList then some ⟨Backend.openai, Backend.deepseek⟩
    else some ⟨Backend.openai, Backend.deepseek⟩
  else if task_type = "debugging".toList then
    if language = "python".toList then some ⟨Backend.deepseek, Backend.openai⟩
    else if language = "javascript".toList then some ⟨Backend.openai, Backend.deepseek⟩
    else some ⟨Backend.deepseek, Backend.openai⟩
  else if task_type = "learning".toList then some ⟨Backend.openai, Backend.deepseek⟩
  else if task_type = "architecture".toList then some ⟨Backend.openai, Backend.deepseek⟩
  else none

/-- `primary_model = lang_prefs.get('primary', 'openai')`. -/
def configured_primary (task_type language : List Char) : Backend :=
  ((lookup_lang_prefs task_type language).map ModelPref.primary).getD Backend.openai

/-- `fallback = lang_prefs.get('fallback', 'openai')`. -/
def configured_fallback (task_type language : List Char) : Backend :=
  ((lookup_lang_prefs task_type language).map ModelPref.fallback).getD Backend.openai

/-- Whether a backend has credentials configured. -/
def available (avail : Availability) : Backend → Bool
  | Backend.openai => avail.openai_client
  | Backend.deepseek => avail.deepseek_available

/-- `MultiModelAI.select_optimal_model(task_type, language)`.  `hist_best`
is the value of `self._get_best_performing_model(task_type, language)`
(`none` when no invocation history qualifies). -/
def select_optimal_model (hist_best : Option Backend) (avail : Availability)
    (task_type language : List Char) : Backend :=
  match hist_best with
  | some best_model => best_model
  | none =>
    let primary_model := configured_primary task_type language
    if primary_model = Backend.openai ∧ avail.openai_client = true then Backend.openai
    else if primary_model = Backend.deepseek ∧ avail.deepseek_available = true then
      Backend.deepseek
    else
      let fallback_model := configured_fallback task_type language
      if fallback_model = Backend.openai ∧ avail.openai_client = true then Backend.openai
      else if fallback_model = Backend.deepseek ∧ avail.deepseek_available = true then
        Backend.deepseek
      else if avail.openai_client = true then Backend.openai else Backend.deepseek

/-- The dictionary built by a successful `_call_openai` / `_call_deepseek`. -/
structure CallResponse where
  content : List Char
  tokens_used : ℕ
  response_time : ℚ
  quality : ℚ

/-- The result dictionary of the single-model path.  Keys present only in one
of the two dictionary shapes (success vs. `_create_error_response`) are
modelled as `Option` fields. -/
structure SingleResult where
  success : Bool
  response : List Char
  model_used : Option Backend
  response_time : ℚ
  tokens_used : ℕ
  quality_score : Option ℚ
  task_type : Option (List Char)
  language : Option (List Char)
  error : Option (List Char)

/-- `MultiModelAI._create_error_response(error_message)`. -/
def create_error_response (error_message : List Char) : SingleResult :=
  { success := false
    error := some error_message
    response := ("I\x27m sorry, but I encountered an error: ".toList) ++ error_message
    model_used := none
    response_time := 0
    tokens_used := 0
    quality_score := none
    task_type := none
    language := none }

/-- `MultiModelAI._generate_with_single_model(query, language, context,
task_type, model)`.  The `openai_call` / `deepseek_call` arguments model the
outcome of `await self._call_openai(...)` / `await self._call_deepseek(...)`:
either the returned response dictionary or a raised exception, which the
surrounding `try`/`except` converts into `_create_error_response`.  `elapsed`
is the measured wall-clock time.  `_store_performance_metrics` only writes to
the database and catches its own errors, so it does not affect the result. -/
def generate_with_single_model (avail : Availability)
    (openai_call deepseek_call : Except (List Char) CallResponse)
    (query language task_type : List Char) (elapsed : ℚ) (model : Backend) :
    SingleResult :=
  if model = Backend.openai ∧ avail.openai_client = true then
    match openai_call with
    | Except.ok r =>
      { success := true, response := r.content, model_used := some Backend.openai,
        response_time := elapsed, tokens_used := r.tokens_used,
        quality_score := some r.quality, task_type := some task_type,
        language := some language, error := none }
    | Except.error e =>
      create_error_response (("Error with openai model: ".toList) ++ e)
  else if model = Backend.deepseek ∧ avail.deepseek_available = true then
    match deepseek_call with
    | Except.ok r =>
      { success := true, response := r.content, model_used := some Backend.deepseek,
        response_time := elapsed, tokens_used := r.tokens_used,
        quality_score := some r.quality, task_type := some task_type,
        language := some language, error := none }
    | Except.error e =>
      create_error_response (("Error with deepseek model: ".toList) ++ e)
  else
    create_error_response ("No available models for this request".toList)

/-- The comparison result dictionary of `_generate_with_both_models`.
Keys that are only conditionally set are `Option` fields. -/
structure DualResult where
  success : Bool
  total_time : ℚ
  response : Option (List Char)
  primary_model : Option Backend
  error : Option (List Char)
  openai_error : Option (List Char)
  deepseek_error : Option (List Char)
  openai_response : Option (List Char)
  deepseek_response : Option (List Char)
  openai_tokens : Option ℕ
  deepseek_tokens : Option ℕ

/-- `MultiModelAI._generate_with_both_models(query, language, context,
task_type)`.  `openai_response` / `deepseek_response` are the two values
returned by `asyncio.gather(..., return_exceptions=True)`: each is either the
backend's response dictionary or the exception it raised, captured
individually.  The quality used in the comparison is the `'quality'` key the
`_call_*` helpers always set.  `_store_model_comparison` only writes to the
database and catches its own errors. -/
def generate_with_both_models
    (openai_response deepseek_response : Except (List Char) CallResponse)
    (total_time : ℚ) : DualResult :=
  let r0 : DualResult := {
    success := true
    total_time := total_time
    response := none
    primary_model := none
    error := none
    openai_error := match openai_response with
      | Except.error e => some e
      | Except.ok _ => none
    openai_response := match openai_response with
      | Except.ok r => some r.content
      | Except.error _ => none
    openai_tokens := match openai_response with
      | Except.ok r => some r.tokens_used
      | Except.error _ => none
    deepseek_error := match deepseek_response with
      | Except.error e => some e
      | Except.ok _ => none
    deepseek_response := match deepseek_response with
      | Except.ok r => some r.content
      | Except.error _ => none
    deepseek_tokens := match deepseek_response with
      | Except.ok r => some r.tokens_used
      | Except.error _ => none }
  match openai_response, deepseek_response with
  | Except.ok ro, Except.ok rd =>
    if rd.quality > ro.quality then
      { r0 with response := some rd.content, primary_model := some Backend.deepseek }
    else
      { r0 with response := some ro.content, primary_model := some Backend.openai }
  | Except.ok ro, Except.error _ =>
    { r0 with response := some ro.content, primary_model := some Backend.openai }
  | Except.error _, Except.ok rd =>
    { r0 with response := some rd.content, primary_model := some Backend.deepseek }
  | Except.error _, Except.error _ =>
    { r0 with success := false,
              error := some ("Both models failed to generate responses".toList) }

end MultiModelAI

namespace ModelTrainer

/-- The dictionary returned by `ModelTrainer.evaluate_trained_model`: either an
`'error'` entry alone, or the metric entries.  Absent metric entries read as
`0` through Python's `dict.get(key, 0)`, modelled with `Option.getD`. -/
structure EvaluationResults where
  error : Option (List Char)
  accuracy_score : Option ℚ
  success_rate : Option ℚ
  deriving DecidableEq

/-- One row of `ModelManager.get_model_metrics`: the persisted metrics of a
previously promoted model, as read back through `dict.get('accuracy_score', 0)`. -/
structure ModelMetricsRecord where
  accuracy_score : Option ℚ
  deriving DecidableEq

/-- `ModelTrainer._should_promote_model(evaluation_results)`.  The
`previous_metrics` argument is the list returned by
`self.model_manager.get_model_metrics(limit=1)` (the trainer's database
environment, passed explicitly in this embedding). -/
def should_promote_model (evaluation_results : EvaluationResults)
    (previous_metrics : List ModelMetricsRecord) : Bool :=
  if evaluation_results.error.isSome then false
  else
    let min_accuracy : ℚ := 2/5
    let min_success_rate : ℚ := 7/10
    let accuracy := evaluation_results.accuracy_score.getD 0
    let success_rate := evaluation_results.success_rate.getD 0
    if accuracy < min_accuracy then false
    else if success_rate < min_success_rate then false
    else
      match previous_metrics with
      | [] => true
      | prev :: _ =>
        let improvement_threshold : ℚ := 1/20
        if accuracy < prev.accuracy_score.getD 0 + improvement_threshold then false
        else true

end ModelTrainer

namespace ModelManager

/-- One entry of the `models/backups` directory: a `model_<version>` directory
tree with its filesystem creation time (`os.path.getctime`) and its content.
The content type `α` abstracts over the model directory tree. -/
structure BackupEntry (α : Type) where
  version : List Char
  created_at : ℚ
  content : α
  deriving DecidableEq

/-- The filesystem state `ModelManager` operates on: the `models/current`
directory (if it exists) and the backup entries. -/
structure FSState (α : Type) where
  current : Option α
  backups : List (BackupEntry α)

/-- `ModelManager.create_backup(model_version)`: returns `False` when there is
no current model, copies the current model into
`models/backups/model_<version>` otherwise.  `shutil.copytree` raises (caught,
returning `False`) when the destination directory already exists.  `now` is
the creation time the new directory gets. -/
def create_backup {α : Type} (fs : FSState α) (model_version : List Char) (now : ℚ) :
    FSState α × Bool :=
  match fs.current with
  | none => (fs, false)
  | some m =>
    if fs.backups.any (fun b => decide (b.version = model_version)) then (fs, false)
    else ({ fs with backups := ⟨model_version, now, m⟩ :: fs.backups }, true)

/-- `ModelManager.promote_model(new_model_path, model_version)`.  `new_model`
is the content of `new_model_path` (`none` when that path does not exist, in
which case the final `shutil.copytree` raises and the `except` handler returns
`False`).  As in the source, the boolean result of `create_backup` is ignored,
and `shutil.rmtree` removes the current model before the copy of the new model
is attempted. -/
def promote_model {α : Type} (fs : FSState α) (new_model : Option α)
    (model_version : List Char) (now : ℚ) : FSState α × Bool :=
  let fs1 := match fs.current with
    | some _ => { (create_backup fs model_version now).1 with current := none }
    | none => fs
  match new_model with
  | some m => ({ fs1 with current := some m }, true)
  | none => (fs1, false)

/-- `ModelManager.list_backups()`: all backup entries sorted by creation time,
newest first (`sorted(..., key=lambda x: x['created_at'], reverse=True)`,
a stable descending sort). -/
def list_backups {α : Type} (fs : FSState α) : List (BackupEntry α) :=
  List.insertionSort (fun a b => b.created_at ≤ a.created_at) fs.backups

/-- `ModelManager.cleanup_old_backups(keep_count=5)`: deletes
`list_backups()[keep_count:]`, i.e. every backup beyond the `keep_count`
newest.  Returns the surviving filesystem state. -/
def cleanup_old_backups {α : Type} (fs : FSState α) (keep_count : ℕ) : FSState α × Bool :=
  ({ fs with backups := (list_backups fs).take keep_count }, true)

/-- The backups removed by `cleanup_old_backups`. -/
def cleanup_deleted {α : Type} (fs : FSState α) (keep_count : ℕ) : List (BackupEntry α) :=
  (list_backups fs).drop keep_count

end ModelManager

namespace DataProcessor

/-- A row of the `TrainingData` table (the fields used by the trainer). -/
structure TrainingSample where
  id : ℕ
  question : List Char
  answer : List Char
  quality_score : ℚ
  used_for_training : Bool
  deriving DecidableEq

/-- `DataProcessor.get_training_data_for_model(limit, min_quality)`: the
unused rows with `quality_score >= min_quality`, ordered by quality score
descending, limited to `limit` rows. -/
def get_training_data_for_model (table : List TrainingSample) (limit : ℕ)
    (min_quality : ℚ) : List TrainingSample :=
  ((List.insertionSort (fun a b => b.quality_score ≤ a.quality_score)
    (table.filter (fun s =>
      decide (min_quality ≤ s.quality_score) && !s.used_for_training))).take limit)

/-- `DataProcessor.mark_training_data_used(training_ids)`: sets
`used_for_training = True` on every row whose id is in `training_ids`. -/
def mark_training_data_used (table : List TrainingSample) (training_ids : List ℕ) :
    List TrainingSample :=
  table.map (fun s =>
    if s.id ∈ training_ids then { s with used_for_training := true } else s)

end DataProcessor

namespace ModelTrainer

/-- The state `ModelTrainer.train_model_with_new_data` can modify: the
`TrainingData` table, the set of training output directories under
`./models`, and the model manager's filesystem. -/
structure TrainerState (α : Type) where
  table : List DataProcessor.TrainingSample
  training_dirs : List (List Char)
  model_fs : ModelManager.FSState α

/-- The error messages `train_model_with_new_data` can place in
`results['error']`, one constructor per message format of the source:
`"No training data available"`, `"Insufficient training data: {n} < {m}"`,
`"Model training failed"`, `"Failed to promote new model"`, and
`"New model performance not satisfactory: {evaluation_results}"`. -/
inductive TrainError
  | noTrainingData
  | insufficientData (got min_required : ℕ)
  | trainingFailed
  | promotionFailed
  | notSatisfactory (evaluation : EvaluationResults)

/-- The `results` dictionary returned by `train_model_with_new_data`. -/
structure TrainResults where
  success : Bool
  training_samples : ℕ
  model_version : Option (List Char)
  training_time : ℚ
  error : Option TrainError

/-- `training_output_dir = f"./models/training_{model_version}"`. -/
def training_dir_name (model_version : List Char) : List Char :=
  ("./models/training_".toList) ++ model_version

/-- `ModelTrainer.train_model_with_new_data(force_training)`.  Inputs that the
source obtains from its environment are passed explicitly: `model_version`
(the timestamp string), `now` (current time), `training_success` (outcome of
`ai_model.fine_tune`, which writes the training output directory),
`trained_model` (the content of that directory), `evaluation_results` (from
`evaluate_trained_model`), `previous_metrics` (from
`model_manager.get_model_metrics(limit=1)` inside `_should_promote_model`),
and `training_time`.  Returns the `results` dictionary and the state left
behind. -/
def train_model_with_new_data {α : Type} (st : TrainerState α)
    (min_quality : ℚ) (min_training_samples : ℕ) (force_training : Bool)
    (model_version : List Char) (now : ℚ)
    (training_success : Bool) (trained_model : α)
    (evaluation_results : EvaluationResults)
    (previous_metrics : List ModelMetricsRecord)
    (training_time : ℚ) : TrainResults × TrainerState α :=
  let results0 : TrainResults :=
    { success := false, training_samples := 0, model_version := none,
      training_time := 0, error := none }
  let training_data :=
    DataProcessor.get_training_data_for_model st.table 1000 min_quality
  if training_data = [] then
    ({ results0 with error := some TrainError.noTrainingData }, st)
  else if training_data.length < min_training_samples ∧ force_training = false then
    let e := TrainError.insufficientData training_data.length min_training_samples
    ({ results0 with error := some e }, st)
  else
    let fs1 := (ModelManager.create_backup st.model_fs model_version now).1
    let dirs1 := st.training_dirs ++ [training_dir_name model_version]
    let st1 : TrainerState α := { st with model_fs := fs1, training_dirs := dirs1 }
    if training_success = false then
      ({ results0 with error := some TrainError.trainingFailed }, st1)
    else
      let step2 : TrainResults × TrainerState α :=
        if should_promote_model evaluation_results previous_metrics then
          let promoted :=
            ModelManager.promote_model st1.model_fs (some trained_model) model_version now
          if promoted.2 then
            let table2 := DataProcessor.mark_training_data_used st1.table
              (training_data.map (fun s => s.id))
            ({ results0 with success := true, model_version := some model_version },
             { st1 with model_fs := promoted.1, table := table2 })
          else
            ({ results0 with error := some TrainError.promotionFailed },
             { st1 with model_fs := promoted.1 })
        else
          ({ results0 with error := some (TrainError.notSatisfactory evaluation_results) },
           st1)
      let st3 : TrainerState α :=
        { step2.2 with model_fs := (ModelManager.cleanup_old_backups step2.2.model_fs 5).1 }
      let results3 :=
        { step2.1 with training_samples := training_data.length, training_time := training_time }
      (results3, st3)

end ModelTrainer

/-! Helper lemmas about the quality estimator. -/

namespace MultiModelAI

theorem featureBonus_nonneg (b : Bool) : 0 ≤ featureBonus b := by
  cases b <;> simp [featureBonus] <;> norm_num

theorem featureBonus_le_tenth (b : Bool) : featureBonus b ≤ 1/10 := by
  cases b <;> simp [featureBonus] <;> norm_num

theorem featureBonus_mono {b b' : Bool} (h : b = true → b' = true) :
    featureBonus b ≤ featureBonus b' := by
  cases b with
  | false => cases b' <;> simp [featureBonus] <;> norm_num
  | true => rw [h rfl]

theorem infix_of_append_right {α : Type} {a s : List α} (t : List α) (h : a <:+: s) :
    a <:+: s ++ t := by
  obtain ⟨u, v, rfl⟩ := h
  exact ⟨u, v ++ t, by simp⟩

theorem containsSub_append_mono {sub s : List Char} (t : List Char)
    (h : containsSub sub s = true) : containsSub sub (s ++ t) = true := by
  simp only [containsSub, decide_eq_true_eq] at h ⊢
  exact infix_of_append_right t h

theorem lower_append (s t : List Char) : lower (s ++ t) = lower s ++ lower t := by
  simp [lower]

theorem hasCodeBlock_append_mono {s : List Char} (t : List Char)
    (h : hasCodeBlock s = true) : hasCodeBlock (s ++ t) = true :=
  containsSub_append_mono t h

theorem hasExplanation_append_mono {s : List Char} (t : List Char)
    (h : hasExplanation s = true) : hasExplanation (s ++ t) = true := by
  simp only [hasExplanation, List.any_eq_true] at h ⊢
  obtain ⟨w, hw, hsub⟩ := h
  exact ⟨w, hw, by rw [lower_append]; exact containsSub_append_mono _ hsub⟩

theorem hasBestPractice_append_mono {s : List Char} (t : List Char)
    (h : hasBestPractice s = true) : hasBestPractice (s ++ t) = true := by
  simp only [hasBestPractice, Bool.or_eq_true] at h ⊢
  rw [lower_append]
  rcases h with h | h
  · exact Or.inl (containsSub_append_mono _ h)
  · exact Or.inr (containsSub_append_mono _ h)

theorem hasExample_append_mono {s : List Char} (t : List Char)
    (h : hasExample s = true) : hasExample (s ++ t) = true := by
  simp only [hasExample] at h ⊢
  rw [lower_append]
  exact containsSub_append_mono _ h

theorem isLongResponse_append_mono {s : List Char} (t : List Char)
    (h : isLongResponse s = true) : isLongResponse (s ++ t) = true := by
  simp only [isLongResponse, decide_eq_true_eq, List.length_append] at h ⊢
  omega

theorem estimate_quality_nonneg (content task_type : List Char) :
    0 ≤ estimate_response_quality content task_type := by
  unfold estimate_response_quality
  split
  · norm_num
  · refine le_min ?_ one_pos.le
    have h1 := featureBonus_nonneg (hasCodeBlock content)
    have h2 := featureBonus_nonneg (hasExplanation content)
    have h3 := featureBonus_nonneg (hasBestPractice content)
    have h4 := featureBonus_nonneg (hasExample content)
    have h5 := featureBonus_nonneg (isLongResponse content)
    linarith

theorem estimate_quality_le_one (content task_type : List Char) :
    estimate_response_quality content task_type ≤ 1 := by
  unfold estimate_response_quality
  split
  · norm_num
  · exact min_le_right _ _

end MultiModelAI


open ModelTrainer in
/-- C1: for every evaluation result (without an error entry), the promotion
decision holds exactly when `accuracy_score ≥ 0.4`, `success_rate ≥ 0.7`, and
either no previous model metrics exist or the new accuracy beats the previous
accuracy by at least `0.05`; boundary cases: accuracy exactly `0.4` passes the
bar while `0.3999` is rejected, and against a previous accuracy of `0.6` a new
accuracy of `0.63` is rejected while `0.66` is accepted. -/
theorem C1_should_promote_iff :
    (∀ (er : EvaluationResults) (prev : List ModelMetricsRecord), er.error = none →
      (should_promote_model er prev = true ↔
        2/5 ≤ er.accuracy_score.getD 0 ∧ 7/10 ≤ er.success_rate.getD 0 ∧
        (prev = [] ∨ ∀ p ∈ prev.head?, p.accuracy_score.getD 0 + 1/20 ≤ er.accuracy_score.getD 0))) ∧
    should_promote_model ⟨none, some (2/5), some 1⟩ [] = true ∧
    should_promote_model ⟨none, some (3999/10000), some 1⟩ [] = false ∧
    should_promote_model ⟨none, some (63/100), some 1⟩ [⟨some (3/5)⟩] = false ∧
    should_promote_model ⟨none, some (66/100), some 1⟩ [⟨some (3/5)⟩] = true := by
  refine ⟨fun er prev herr => ?_, by norm_num [should_promote_model],
    by norm_num [should_promote_model], by norm_num [should_promote_model],
    by norm_num [should_promote_model]⟩
  unfold should_promote_model
  rw [herr]
  simp only [Option.isSome_none, Bool.false_eq_true, if_false]
  cases prev with
  | nil =>
    constructor
    · intro h
      by_cases ha : er.accuracy_score.getD 0 < 2/5
      · rw [if_pos ha] at h; exact absurd h (by simp)
      · rw [if_neg ha] at h
        by_cases hs : er.success_rate.getD 0 < 7/10
        · rw [if_pos hs] at h; exact absurd h (by simp)
        · exact ⟨not_lt.mp ha, not_lt.mp hs, Or.inl rfl⟩
    · rintro ⟨ha, hs, -⟩
      rw [if_neg (not_lt.mpr ha), if_neg (not_lt.mpr hs)]
  | cons p rest =>
    constructor
    · intro h
      by_cases ha : er.accuracy_score.getD 0 < 2/5
      · rw [if_pos ha] at h; exact absurd h (by simp)
      · rw [if_neg ha] at h
        by_cases hs : er.success_rate.getD 0 < 7/10
        · rw [if_pos hs] at h; exact absurd h (by simp)
        · rw [if_neg hs] at h
          dsimp only at h
          by_cases hi : er.accuracy_score.getD 0 < p.accuracy_score.getD 0 + 1/20
          · rw [if_pos hi] at h; exact absurd h (by simp)
          · refine ⟨not_lt.mp ha, not_lt.mp hs, Or.inr ?_⟩
            intro q hq
            simp only [List.head?_cons, Option.mem_def, Option.some_inj] at hq
            subst hq
            linarith [not_lt.mp hi]
    · rintro ⟨ha, hs, hrel⟩
      rw [if_neg (not_lt.mpr ha), if_neg (not_lt.mpr hs)]
      rcases hrel with hnil | himp
      · exact absurd hnil (by simp)
      · have := himp p (by simp)
        dsimp only
        rw [if_neg (not_lt.mpr (by linarith))]

open ModelTrainer in
/-- Witness for C1: a model with accuracy `0.5` and success rate `0.8` and no
previous metrics is promoted. -/
theorem C1_should_promote_iff_witness :
    should_promote_model ⟨none, some (1/2), some (4/5)⟩ [] = true :=
  (C1_should_promote_iff.1 ⟨none, some (1/2), some (4/5)⟩ [] rfl).mpr
    (by norm_num)

open MultiModelAI in
/-- C6: for every text and task type, `_estimate_response_quality` is a pure
deterministic function returning `0.0` for empty text and otherwise a `0.5`
base plus `0.1` for each feature present (fenced code block, explanatory
connector word, best-practice wording, the word "example", length over 500
characters), capped at `1.0`; the result always lies in `[0, 1]`. -/
theorem C6_estimate_quality_spec (content task_type : List Char) :
    (content = [] → estimate_response_quality content task_type = 0) ∧
    (content ≠ [] →
      estimate_response_quality content task_type
        = min (1/2 + (featureCount content : ℚ)/10) 1) ∧
    0 ≤ estimate_response_quality content task_type ∧
    estimate_response_quality content task_type ≤ 1 := by
  refine ⟨fun h => by simp [estimate_response_quality, h], fun h => ?_,
    estimate_quality_nonneg _ _, estimate_quality_le_one _ _⟩
  unfold estimate_response_quality featureCount featureBonus
  rw [if_neg h]
  cases hasCodeBlock content <;> cases hasExplanation content <;>
    cases hasBestPractice content <;> cases hasExample content <;>
    cases isLongResponse content <;> norm_num

open MultiModelAI in
/-- Witness for C6 at the concrete one-word text "example". -/
theorem C6_estimate_quality_spec_witness :
    estimate_response_quality ("example".toList) []
      = min (1/2 + (featureCount ("example".toList) : ℚ)/10) 1 :=
  (C6_estimate_quality_spec ("example".toList) []).2.1 (by decide)

open MultiModelAI in
/-- C7: the quality score is monotone under appending further text (appending
text can only introduce features, never remove them, so the score never
decreases; in particular appending a fenced code block never decreases it),
and the score always lies in `[0, 1]`. -/
theorem C7_quality_monotone_append (s t task_type : List Char) :
    estimate_response_quality s task_type ≤ estimate_response_quality (s ++ t) task_type ∧
    0 ≤ estimate_response_quality (s ++ t) task_type ∧
    estimate_response_quality (s ++ t) task_type ≤ 1 := by
  refine ⟨?_, estimate_quality_nonneg _ _, estimate_quality_le_one _ _⟩
  by_cases hs : s = []
  · rw [hs, List.nil_append]
    have h0 : estimate_response_quality [] task_type = 0 := by
      simp [estimate_response_quality]
    rw [h0]
    exact estimate_quality_nonneg t task_type
  · have hst : s ++ t ≠ [] := fun hc => hs (List.append_eq_nil.mp hc).1
    unfold estimate_response_quality
    rw [if_neg hs, if_neg hst]
    have m1 := featureBonus_mono (fun h => hasCodeBlock_append_mono (s := s) t h)
    have m2 := featureBonus_mono (fun h => hasExplanation_append_mono (s := s) t h)
    have m3 := featureBonus_mono (fun h => hasBestPractice_append_mono (s := s) t h)
    have m4 := featureBonus_mono (fun h => hasExample_append_mono (s := s) t h)
    have m5 := featureBonus_mono (fun h => isLongResponse_append_mono (s := s) t h)
    exact min_le_min (by linarith) le_rfl

open MultiModelAI in
/-- C10: for every non-empty text the score is at least the `0.5` base and at
most `1`; the five feature bonuses sum to at most `0.5`, so the `min _ 1.0`
cap is never actually engaged and the score equals the uncapped sum. -/
theorem C10_nonempty_base_and_cap (content task_type : List Char) (h : content ≠ []) :
    1/2 ≤ estimate_response_quality content task_type ∧
    estimate_response_quality content task_type ≤ 1 ∧
    featureBonus (hasCodeBlock content) + featureBonus (hasExplanation content)
      + featureBonus (hasBestPractice content) + featureBonus (hasExample content)
      + featureBonus (isLongResponse content) ≤ 1/2 ∧
    estimate_response_quality content task_type
      = 1/2 + featureBonus (hasCodeBlock content) + featureBonus (hasExplanation content)
        + featureBonus (hasBestPractice content) + featureBonus (hasExample content)
        + featureBonus (isLongResponse content) := by
  have h1 := featureBonus_nonneg (hasCodeBlock content)
  have h2 := featureBonus_nonneg (hasExplanation content)
  have h3 := featureBonus_nonneg (hasBestPractice content)
  have h4 := featureBonus_nonneg (hasExample content)
  have h5 := featureBonus_nonneg (isLongResponse content)
  have g1 := featureBonus_le_tenth (hasCodeBlock content)
  have g2 := featureBonus_le_tenth (hasExplanation content)
  have g3 := featureBonus_le_tenth (hasBestPractice content)
  have g4 := featureBonus_le_tenth (hasExample content)
  have g5 := featureBonus_le_tenth (isLongResponse content)
  have heq : estimate_response_quality content task_type
      = 1/2 + featureBonus (hasCodeBlock content) + featureBonus (hasExplanation content)
        + featureBonus (hasBestPractice content) + featureBonus (hasExample content)
        + featureBonus (isLongResponse content) := by
    unfold estimate_response_quality
    rw [if_neg h]
    exact min_eq_left (by linarith)
  exact ⟨by rw [heq]; linarith, by rw [heq]; linarith, by linarith, heq⟩

open MultiModelAI in
/-- Witness for C10 at the concrete one-character text "x". -/
theorem C10_nonempty_base_and_cap_witness :
    1/2 ≤ estimate_response_quality ("x".toList) [] :=
  (C10_nonempty_base_and_cap ("x".toList) [] (by decide)).1


open MultiModelAI in
/-- C2: with no invocation history, `select_optimal_model` returns the
configured primary backend when it is available, else the configured fallback
when that is available, else whichever backend is available at all; and when
no backend has credentials, the caller receives from the single-model
generation path an explicit structured "No available models" error result. -/
theorem C2_select_no_history (avail : Availability) (task_type language : List Char)
    (openai_call deepseek_call : Except (List Char) CallResponse)
    (query : List Char) (elapsed : ℚ) :
    (available avail (configured_primary task_type language) = true →
      select_optimal_model none avail task_type language
        = configured_primary task_type language) ∧
    (available avail (configured_primary task_type language) = false →
      available avail (configured_fallback task_type language) = true →
      select_optimal_model none avail task_type language
        = configured_fallback task_type language) ∧
    ((avail.openai_client = true ∨ avail.deepseek_available = true) →
      available avail (select_optimal_model none avail task_type language) = true) ∧
    (avail.openai_client = false → avail.deepseek_available = false →
      (generate_with_single_model avail openai_call deepseek_call query language
          task_type elapsed (select_optimal_model none avail task_type language)).success
        = false ∧
      (generate_with_single_model avail openai_call deepseek_call query language
          task_type elapsed (select_optimal_model none avail task_type language)).error
        = some ("No available models for this request".toList)) := by
  obtain ⟨o, d⟩ := avail
  cases hp : configured_primary task_type language <;>
    cases hf : configured_fallback task_type language <;>
      cases o <;> cases d <;>
        simp_all [select_optimal_model, available, generate_with_single_model,
          create_error_response]

open MultiModelAI in
/-- Witness for C2: with OpenAI available and DeepSeek not, the primary
choice for (code_generation, python) is selected. -/
theorem C2_select_no_history_witness :
    select_optimal_model none ⟨true, false⟩ ("code_generation".toList) ("python".toList)
      = configured_primary ("code_generation".toList) ("python".toList) :=
  (C2_select_no_history ⟨true, false⟩ ("code_generation".toList) ("python".toList)
    (Except.error []) (Except.error []) [] 0).1 (by decide)

open MultiModelAI in
/-- C3: in the dual-backend path, if both calls succeed the strictly
higher-quality response is primary and the result is successful (ties go to
OpenAI); if exactly one call succeeds, it is primary with `success = True`;
if both raise, `success = False` with the combined error message; each call's
exception is recorded in its own per-backend error field and never prevents
the other call's response from being processed. -/
theorem C3_dual_backend_selection
    (o d : Except (List Char) CallResponse) (total_time : ℚ) :
    (∀ ro rd, o = Except.ok ro → d = Except.ok rd →
      (generate_with_both_models o d total_time).success = true ∧
      (ro.quality < rd.quality →
        (generate_with_both_models o d total_time).primary_model = some Backend.deepseek ∧
        (generate_with_both_models o d total_time).response = some rd.content) ∧
      (rd.quality ≤ ro.quality →
        (generate_with_both_models o d total_time).primary_model = some Backend.openai ∧
        (generate_with_both_models o d total_time).response = some ro.content)) ∧
    (∀ ro ed, o = Except.ok ro → d = Except.error ed →
      (generate_with_both_models o d total_time).success = true ∧
      (generate_with_both_models o d total_time).primary_model = some Backend.openai ∧
      (generate_with_both_models o d total_time).response = some ro.content ∧
      (generate_with_both_models o d total_time).deepseek_error = some ed ∧
      (generate_with_both_models o d total_time).openai_response = some ro.content) ∧
    (∀ eo rd, o = Except.error eo → d = Except.ok rd →
      (generate_with_both_models o d total_time).success = true ∧
      (generate_with_both_models o d total_time).primary_model = some Backend.deepseek ∧
      (generate_with_both_models o d total_time).response = some rd.content ∧
      (generate_with_both_models o d total_time).openai_error = some eo ∧
      (generate_with_both_models o d total_time).deepseek_response = some rd.content) ∧
    (∀ eo ed, o = Except.error eo → d = Except.error ed →
      (generate_with_both_models o d total_time).success = false ∧
      (generate_with_both_models o d total_time).error
        = some ("Both models failed to generate responses".toList) ∧
      (generate_with_both_models o d total_time).openai_error = some eo ∧
      (generate_with_both_models o d total_time).deepseek_error = some ed) := by
  refine ⟨?_, ?_, ?_, ?_⟩
  · rintro ro rd rfl rfl
    refine ⟨?_, ?_, ?_⟩
    · by_cases hq : rd.quality > ro.quality <;>
        simp [generate_with_both_models, hq]
    · intro hq
      simp [generate_with_both_models, hq]
    · intro hq
      have hq' : ¬(rd.quality > ro.quality) := not_lt.mpr hq
      simp [generate_with_both_models, hq']
  · rintro ro ed rfl rfl
    simp [generate_with_both_models]
  · rintro eo rd rfl rfl
    simp [generate_with_both_models]
  · rintro eo ed rfl rfl
    simp [generate_with_both_models]

open MultiModelAI in
/-- Witness for C3: one backend raising while the other succeeds yields a
successful result with the successful backend primary. -/
theorem C3_dual_backend_selection_witness :
    (generate_with_both_models (Except.ok ⟨[], 0, 0, 1⟩)
        (Except.error ("boom".toList)) 0).success = true :=
  ((C3_dual_backend_selection (Except.ok ⟨[], 0, 0, 1⟩)
    (Except.error ("boom".toList)) 0).2.1 ⟨[], 0, 0, 1⟩ ("boom".toList) rfl rfl).1

open MultiModelAI in
/-- C9: the single-backend path is a total function into structured result
dictionaries — a raised backend exception or an unavailable backend never
propagates: `success = False` holds exactly when an error string is present,
a captured exception produces the structured "Error with ... model" response,
and with no available backend the structured "No available models" response
is returned. -/
theorem C9_single_model_structured (avail : Availability)
    (openai_call deepseek_call : Except (List Char) CallResponse)
    (query language task_type : List Char) (elapsed : ℚ) (model : Backend) :
    ((generate_with_single_model avail openai_call deepseek_call query language
        task_type elapsed model).success = false ↔
      ∃ e, (generate_with_single_model avail openai_call deepseek_call query language
        task_type elapsed model).error = some e) ∧
    (∀ e, model = Backend.openai → avail.openai_client = true →
      openai_call = Except.error e →
      generate_with_single_model avail openai_call deepseek_call query language
          task_type elapsed model
        = create_error_response (("Error with openai model: ".toList) ++ e)) ∧
    (∀ e, model = Backend.deepseek → avail.deepseek_available = true →
      deepseek_call = Except.error e →
      generate_with_single_model avail openai_call deepseek_call query language
          task_type elapsed model
        = create_error_response (("Error with deepseek model: ".toList) ++ e)) ∧
    (available avail model = false →
      generate_with_single_model avail openai_call deepseek_call query language
          task_type elapsed model
        = create_error_response ("No available models for this request".toList)) := by
  obtain ⟨o, d⟩ := avail
  cases model <;> cases o <;> cases d <;>
    cases openai_call <;> cases deepseek_call <;>
      simp_all [generate_with_single_model, create_error_response, available]

open MultiModelAI in
/-- Witness for C9: with no credentials at all, the result is the structured
"No available models" error response. -/
theorem C9_single_model_structured_witness :
    generate_with_single_model ⟨false, false⟩ (Except.error []) (Except.error [])
        [] [] [] 0 Backend.openai
      = create_error_response ("No available models for this request".toList) :=
  (C9_single_model_structured ⟨false, false⟩ (Except.error []) (Except.error [])
    [] [] [] 0 Backend.openai).2.2.2 (by decide)

open ModelManager in
/-- C4 counterexample: `promote_model` is not atomic in the claimed sense.
With a current model present (content `0`) and a new model path that does not
exist, the call returns `False`, yet the previously current model has been
removed from the current slot instead of being left in place. -/
theorem C4_promote_not_atomic_counterexample :
    (promote_model (⟨some 0, []⟩ : FSState ℕ) none ("v".toList) 0).2 = false ∧
    ((promote_model (⟨some 0, []⟩ : FSState ℕ) none ("v".toList) 0).1).current = none ∧
    (⟨some 0, []⟩ : FSState ℕ).current = some 0 := by
  refine ⟨rfl, rfl, rfl⟩

open ModelManager in
/-- C4 amended: `promote_model` succeeds (returning `True` with the new model
in the current slot) whenever the new model path exists, and the old current
model is copied to a backup (when a current model exists and no backup with
that version is already present); but when the new model path does not exist
the call returns `False` with the current slot left empty — the previously
current model has already been backed up and removed, not left in place. -/
theorem C4_promote_model_amended {α : Type} (fs : FSState α) (new_model : Option α)
    (model_version : List Char) (now : ℚ) :
    (∀ m, new_model = some m →
      (promote_model fs new_model model_version now).2 = true ∧
      ((promote_model fs new_model model_version now).1).current = some m) ∧
    (∀ c, fs.current = some c →
      fs.backups.any (fun b => decide (b.version = model_version)) = false →
      (⟨model_version, now, c⟩ : BackupEntry α) ∈
        ((promote_model fs new_model model_version now).1).backups) ∧
    (new_model = none →
      (promote_model fs new_model model_version now).2 = false ∧
      ((promote_model fs new_model model_version now).1).current = none) := by
  obtain ⟨cur, bks⟩ := fs
  refine ⟨?_, ?_, ?_⟩
  · rintro m rfl
    cases cur <;> simp [promote_model, create_backup] <;> split <;> simp
  · rintro c rfl hfresh
    cases new_model <;>
      simp_all [promote_model, create_backup] <;>
        rw [if_neg (by simpa using hfresh)] <;> simp
  · rintro rfl
    cases cur <;> simp [promote_model, create_backup]

open ModelManager in
/-- Witness for C4 amended: promoting an existing new model over a current
model succeeds with the new content in the current slot. -/
theorem C4_promote_model_amended_witness :
    (promote_model (⟨some 0, []⟩ : FSState ℕ) (some 1) ("v".toList) 0).2 = true ∧
    ((promote_model (⟨some 0, []⟩ : FSState ℕ) (some 1) ("v".toList) 0).1).current
      = some 1 :=
  (C4_promote_model_amended (⟨some 0, []⟩ : FSState ℕ) (some 1) ("v".toList) 0).1 1 rfl

open ModelManager in
/-- C8: `cleanup_old_backups` retains exactly the `keep_count` newest backups
by creation time and deletes all older ones (creation times assumed pairwise
distinct, as directory creation timestamps are): every deleted backup is
strictly older than every retained one, the retained and deleted backups
together are exactly the original ones, nothing is deleted when at most
`keep_count` backups exist, and on 8 backups with `keep_count = 5` exactly 3
are deleted and 5 retained. -/
theorem C8_cleanup_retains_newest {α : Type} (fs : FSState α) (keep_count : ℕ)
    (hdist : fs.backups.Pairwise (fun a b => a.created_at ≠ b.created_at)) :
    (∀ x ∈ cleanup_deleted fs keep_count,
      ∀ y ∈ ((cleanup_old_backups fs keep_count).1).backups,
        x.created_at < y.created_at) ∧
    ((cleanup_old_backups fs keep_count).1).backups.length
        = min keep_count fs.backups.length ∧
    (((cleanup_old_backups fs keep_count).1).backups
        ++ cleanup_deleted fs keep_count).Perm fs.backups ∧
    (fs.backups.length ≤ keep_count → cleanup_deleted fs keep_count = []) ∧
    (fs.backups.length = 8 → keep_count = 5 →
      ((cleanup_old_backups fs keep_count).1).backups.length = 5 ∧
      (cleanup_deleted fs keep_count).length = 3) := by
  have hperm : (list_backups fs).Perm fs.backups :=
    List.perm_insertionSort _ _
  haveI ht : IsTotal (BackupEntry α) (fun a b => b.created_at ≤ a.created_at) :=
    ⟨fun a b => le_total b.created_at a.created_at⟩
  haveI htr : IsTrans (BackupEntry α) (fun a b => b.created_at ≤ a.created_at) :=
    ⟨fun _ _ _ hab hbc => le_trans hbc hab⟩
  have hsort : (list_backups fs).Pairwise
      (fun a b => b.created_at ≤ a.created_at) :=
    List.sorted_insertionSort _ fs.backups
  have hne : (list_backups fs).Pairwise
      (fun a b => a.created_at ≠ b.created_at) :=
    (List.Perm.pairwise_iff (fun h => h.symm) hperm).mpr hdist
  have hsplit := List.take_append_drop keep_count (list_backups fs)
  have hsort2 : ((list_backups fs).take keep_count
      ++ (list_backups fs).drop keep_count).Pairwise
      (fun a b => b.created_at ≤ a.created_at) := by rw [hsplit]; exact hsort
  have hne2 : ((list_backups fs).take keep_count
      ++ (list_backups fs).drop keep_count).Pairwise
      (fun a b => a.created_at ≠ b.created_at) := by rw [hsplit]; exact hne
  have hrel := (List.pairwise_append.mp hsort2).2.2
  have hrelne := (List.pairwise_append.mp hne2).2.2
  have hlen : (list_backups fs).length = fs.backups.length := hperm.length_eq
  refine ⟨?_, ?_, ?_, ?_, ?_⟩
  · intro x hx y hy
    have h1 : x.created_at ≤ y.created_at := hrel y hy x hx
    have h2 : y.created_at ≠ x.created_at := hrelne y hy x hx
    exact lt_of_le_of_ne h1 (Ne.symm h2)
  · simp [cleanup_old_backups, List.length_take, hlen]
  · show ((list_backups fs).take keep_count
        ++ (list_backups fs).drop keep_count).Perm fs.backups
    rw [hsplit]; exact hperm
  · intro hle
    exact List.drop_eq_nil_of_le (by rw [hlen]; exact hle)
  · intro h8 h5
    constructor
    · simp [cleanup_old_backups, List.length_take, hlen, h8, h5]
    · simp [cleanup_deleted, List.length_drop, hlen, h8, h5]

open ModelManager in
/-- Witness for C8: with 2 backups and `keep_count = 5`, nothing is
deleted. -/
theorem C8_cleanup_retains_newest_witness :
    cleanup_deleted
      (⟨none, [⟨"a".toList, 1, 0⟩, ⟨"b".toList, 2, 0⟩]⟩ : FSState ℕ) 5 = [] :=
  (C8_cleanup_retains_newest
    (⟨none, [⟨"a".toList, 1, 0⟩, ⟨"b".toList, 2, 0⟩]⟩ : FSState ℕ) 5
    (by decide)).2.2.2.1 (by decide)

open ModelTrainer in
/-- C5: when the promotion guard fails during a run of
`train_model_with_new_data` (training data present and sufficient, training
succeeded, but `_should_promote_model` returned `False`), no training
sample's `used_for_training` flag is changed, the training output directory
is left in place, and the returned result reports failure with the failing
evaluation metrics as the reason (and still reports the sample count). -/
theorem C5_guard_failure_frame {α : Type} (st : TrainerState α)
    (min_quality : ℚ) (min_training_samples : ℕ) (force_training : Bool)
    (model_version : List Char) (now : ℚ) (trained_model : α)
    (evaluation_results : EvaluationResults)
    (previous_metrics : List ModelMetricsRecord) (training_time : ℚ)
    (hdata : DataProcessor.get_training_data_for_model st.table 1000 min_quality ≠ [])
    (hsize : ¬((DataProcessor.get_training_data_for_model st.table 1000
        min_quality).length < min_training_samples ∧ force_training = false))
    (hguard : should_promote_model evaluation_results previous_metrics = false) :
    ((train_model_with_new_data st min_quality min_training_samples force_training
        model_version now true trained_model evaluation_results previous_metrics
        training_time).2).table = st.table ∧
    training_dir_name model_version ∈
      ((train_model_with_new_data st min_quality min_training_samples force_training
        model_version now true trained_model evaluation_results previous_metrics
        training_time).2).training_dirs ∧
    ((train_model_with_new_data st min_quality min_training_samples force_training
        model_version now true trained_model evaluation_results previous_metrics
        training_time).1).success = false ∧
    ((train_model_with_new_data st min_quality min_training_samples force_training
        model_version now true trained_model evaluation_results previous_metrics
        training_time).1).error
      = some (TrainError.notSatisfactory evaluation_results) ∧
    ((train_model_with_new_data st min_quality min_training_samples force_training
        model_version now true trained_model evaluation_results previous_metrics
        training_time).1).training_samples
      = (DataProcessor.get_training_data_for_model st.table 1000 min_quality).length := by
  simp only [train_model_with_new_data, if_neg hdata, if_neg hsize, hguard]
  simp [List.mem_append]

open ModelTrainer in
/-- Witness for C5: a concrete one-sample run whose evaluation fails the
promotion guard leaves the sample table unchanged. -/
theorem C5_guard_failure_frame_witness :
    ((train_model_with_new_data
        (⟨[⟨1, [], [], 1, false⟩], [], ⟨none, []⟩⟩ : TrainerState ℕ)
        0 1 false ("v".toList) 0 true 0 ⟨none, some 0, some 0⟩ [] 0).2).table
      = [⟨1, [], [], 1, false⟩] :=
  (C5_guard_failure_frame (⟨[⟨1, [], [], 1, false⟩], [], ⟨none, []⟩⟩ : TrainerState ℕ)
    0 1 false ("v".toList) 0 0 ⟨none, some 0, some 0⟩ [] 0
    (by decide) (by decide) (by norm_num [should_promote_model])).1
